import Mathlib

/-!
Verification of the github-trending-cli core: tiered disk cache, trending
fetch with scraping fallback, filter engine, and repository health scoring.
The definitions below are a shallow embedding of `github_trending.py` and
`analyzer.py`: Python dictionaries/JSON values become the `JValue` type,
uncaught Python exceptions become `Except.error`, wall-clock time is an
explicit `Int` (epoch seconds), and remote I/O becomes explicit parameters
(file states, primary-feed outcomes, a `World` of API responses).
-/

/-- Model of a Python/JSON value as produced by `json.load`: null, booleans,
integers (the numeric payloads relevant here are integral epoch seconds and
counts), strings, arrays and objects (dicts as association lists in insertion
order, keys unique). -/
inductive JValue where
  | null : JValue
  | bool : Bool → JValue
  | num : Int → JValue
  | str : String → JValue
  | arr : List JValue → JValue
  | obj : List (String × JValue) → JValue
deriving Repr

/-- Python dict lookup `d.get(k)`: first binding of the key (keys are unique in
a parsed JSON object). Returns `none` when the key is absent. -/
def jGet (fields : List (String × JValue)) (k : String) : Option JValue :=
  (fields.find? (fun p => p.1 = k)).map (fun p => p.2)

/-- Python truthiness of a JSON value: `None`, `False`, `0`, `""`, `[]` and
`{}` are falsy, everything else truthy. -/
def jTruthy : JValue → Bool
  | .null => false
  | .bool b => b
  | .num n => n != 0
  | .str s => s != ""
  | .arr xs => !xs.isEmpty
  | .obj fs => !fs.isEmpty

/-- Numeric view of a value for Python subtraction `time.time() - x`:
numbers work, booleans coerce (True = 1), anything else raises TypeError. -/
def toNumber : JValue → Option Int
  | .num n => some n
  | .bool b => some (if b then 1 else 0)
  | _ => none

/-- State of one on-disk cache file as observed by `read_cache`:
`absent` (the path does not exist), `unreadable` (opening/reading raises
OSError, or the bytes are not valid JSON, raising JSONDecodeError — both
caught), or `content v` (the bytes parse as the JSON value `v`). Every byte
content of the file falls into `unreadable` or `content v`. -/
inductive FileState where
  | absent : FileState
  | unreadable : FileState
  | content : JValue → FileState
deriving Repr

/-- Per-category TTLs from the CACHE_TTL table, with the `.get(cache_type,
3600)` default used by `read_cache` for unknown categories. -/
def CACHE_TTL (cache_type : String) : Int :=
  if cache_type = "trending" then 3600
  else if cache_type = "repo_info" then 86400
  else if cache_type = "readme" then 86400
  else if cache_type = "tree" then 86400
  else if cache_type = "deps" then 86400
  else if cache_type = "issues" then 1800
  else 3600

/-- Embedding of `read_cache(cache_type, key)` from github_trending.py
(lines 109–129), reading the cache file in state `file` at time `now`.
The Python function returns `data.get("_data")` on a hit and `None`
otherwise; both are Python values, so the result is a `JValue` with
`JValue.null` denoting MISS. An uncaught exception is `Except.error`:
the `except` clause catches OSError, JSONDecodeError and KeyError, but
`data.get(...)` on a parsed non-dict raises AttributeError and
`time.time() - cached_at` on a non-numeric `_cached_at` raises TypeError,
neither of which is caught. -/
def read_cache (cache_type : String) (file : FileState) (now : Int) :
    Except String JValue :=
  match file with
  | .absent => .ok .null
  | .unreadable => .ok .null
  | .content data =>
    match data with
    | .obj fields =>
      let cached_at := (jGet fields "_cached_at").getD (.num 0)
      match toNumber cached_at with
      | none => .error "TypeError"
      | some t =>
        if now - t > CACHE_TTL cache_type then
          .ok .null
        else
          .ok ((jGet fields "_data").getD .null)
    | _ => .error "AttributeError"

/-- Cache directory contents: one file state per `(cache_type, key)` pair
(the md5 hashing of the key in `get_cache_path` is injective-by-assumption,
so the pair itself addresses the file). -/
def Store : Type := String → String → FileState

/-- Embedding of `write_cache(cache_type, key, data)` (lines 132–148): writes
the record `{"_cached_at": now, "_key": key, "_data": data}` to the file for
`(cache_type, key)`. A `JValue` payload is always JSON-serializable, and the
filesystem is assumed writable (an OSError would be swallowed and leave the
store unchanged; that failure mode is outside the round-trip claims). -/
def write_cache (st : Store) (cache_type key : String) (data : JValue)
    (now : Int) : Store :=
  fun c k =>
    if c = cache_type ∧ k = key then
      .content (.obj [("_cached_at", .num now), ("_key", .str key),
                      ("_data", data)])
    else st c k

/-- Reading through the store: `read_cache` applied to the file currently
stored for `(cache_type, key)`. -/
def read_cache_store (st : Store) (cache_type key : String) (now : Int) :
    Except String JValue :=
  read_cache cache_type (st cache_type key) now

/-- Validity of a digit run for Python `int()`: nonempty, every character a
decimal digit or an underscore, first and last characters digits, and no two
consecutive underscores (underscores are only allowed between digits). -/
def pyIntDigitsOk (cs : List Char) : Bool :=
  !cs.isEmpty &&
  cs.all (fun c => c.isDigit || c = '_') &&
  (match cs.head? with | some c => c.isDigit | none => false) &&
  (match cs.getLast? with | some c => c.isDigit | none => false) &&
  ((cs.zip cs.tail).all (fun p => !(p.1 = '_' && p.2 = '_')))

/-- Value of a valid digit run, underscores skipped. -/
def digitsVal (cs : List Char) : Nat :=
  (cs.filter (fun c => c ≠ '_')).foldl (fun a c => 10 * a + (c.toNat - 48)) 0

/-- Digit-run parse: the value when valid, `none` (ValueError) otherwise. -/
def pyIntFromDigits (cs : List Char) : Option Int :=
  if pyIntDigitsOk cs then some (digitsVal cs) else none

/-- Embedding of Python `int(s)` on a decimal string: surrounding whitespace
is stripped, one optional sign is allowed, then a digit run per
`pyIntDigitsOk`. `none` models the ValueError raised on any other string.
(Non-ASCII decimal digits, accepted by CPython, are out of scope.) -/
def pyInt (s : String) : Option Int :=
  let cs := ((s.toList.dropWhile Char.isWhitespace).reverse.dropWhile
    Char.isWhitespace).reverse
  match cs with
  | '+' :: rest => pyIntFromDigits rest
  | '-' :: rest => (pyIntFromDigits rest).map (fun n => -n)
  | _ => pyIntFromDigits cs

/-- Python `s.replace(",", "")`: every comma removed. -/
def stripCommas (s : String) : String :=
  String.mk (s.toList.filter (fun c => c ≠ ','))

/-- One repository record from the trending feed as consumed by
`filter_repos`: the dict keys it reads, each `Option` to model key absence
(`repo.get(k, default)`), plus the `_stars_int` key the filter adds. -/
structure Repo where
  title : Option String := none
  description : Option String := none
  stars : Option String := none
  starsInt : Option Int := none
deriving Repr, DecidableEq

/-- Star parsing inside `filter_repos` (github_trending.py line 313):
`int(repo.get('stars', '0').replace(',', ''))`. `none` models the
uncaught ValueError. -/
def parseStars (r : Repo) : Option Int :=
  pyInt (stripCommas (r.stars.getD "0"))

/-- Python `s.lower()` (ASCII case mapping; exotic Unicode case rules are
out of scope for the repository titles and search terms involved). -/
def lowerStr (s : String) : String :=
  String.mk (s.toList.map Char.toLower)

/-- Byte-run prefix test on character lists. -/
def headRunOf : List Char → List Char → Bool
  | [], _ => true
  | _ :: _, [] => false
  | a :: as, b :: bs => a = b && headRunOf as bs

/-- Contiguous occurrence of `needle` anywhere in `hay`. -/
def infixRunOf (needle : List Char) : List Char → Bool
  | [] => headRunOf needle []
  | c :: rest => headRunOf needle (c :: rest) || infixRunOf needle rest

/-- Python substring test `needle in hay` (empty needle always matches). -/
def substrOf (needle hay : String) : Bool :=
  infixRunOf needle.toList hay.toList

/-- Truthiness of the `max_stars` argument in `if max_stars and ...`:
`None` and `0` are falsy. -/
def maxTruthy : Option Int → Bool
  | none => false
  | some m => m != 0

/-- Truthiness of the `search` argument in `if search:`: `None` and the
empty string are falsy. -/
def searchTruthy : Option String → Bool
  | none => false
  | some t => t != ""

/-- Embedding of `filter_repos(repos, min_stars, max_stars, search)`
(github_trending.py lines 306–331). Each entry's star string is parsed by
`parseStars`; a parse failure is the uncaught ValueError aborting the whole
call (`Except.error`). Surviving entries get `_stars_int` set and keep their
input order. -/
def filter_repos : List Repo → Int → Option Int → Option String →
    Except String (List Repo)
  | [], _, _, _ => .ok []
  | repo :: rest, min_stars, max_stars, search =>
    match parseStars repo with
    | none => .error "ValueError"
    | some stars =>
      let skip : Bool :=
        if stars < min_stars then true
        else if maxTruthy max_stars && decide (stars > max_stars.getD 0) then
          true
        else if searchTruthy search &&
            !(substrOf (lowerStr (search.getD "")) (lowerStr (repo.title.getD ""))
              || substrOf (lowerStr (search.getD ""))
                  (lowerStr (repo.description.getD ""))) then
          true
        else false
      match filter_repos rest min_stars max_stars search with
      | .error e => .error e
      | .ok tail =>
        .ok (if skip then tail else { repo with starsInt := some stars } :: tail)

/-- Specification-side predicate for the filter claim: the entry's parsed
star count is at least `min_stars` and (case-insensitively) the search term
occurs in the title or in the description. -/
def meetsCriteria (min_stars : Int) (term : String) (r : Repo) : Bool :=
  decide (min_stars ≤ (parseStars r).getD 0) &&
  (substrOf (lowerStr term) (lowerStr (r.title.getD "")) ||
   substrOf (lowerStr term) (lowerStr (r.description.getD "")))

/-- The derived-field attachment performed on each surviving entry. -/
def setStarsInt (r : Repo) : Repo :=
  { r with starsInt := some ((parseStars r).getD 0) }

/-- Outcome of the primary-feed request inside `fetch_trending`:
the feed body parsed as JSON, or the exceptions the code handles
(`HTTPError` with a status code, `URLError`). -/
inductive PrimaryResult where
  | ok : JValue → PrimaryResult
  | httpError : Int → PrimaryResult
  | urlError : PrimaryResult
deriving Repr

/-- Observable outcome of `fetch_trending`: the returned data, or the
process-terminating `sys.exit(code)`, or an uncaught exception escaping
the cache read. -/
inductive FetchOutcome where
  | ret : JValue → FetchOutcome
  | exit : Int → FetchOutcome
  | exn : String → FetchOutcome
deriving Repr

/-- Field-name normalization applied to one feed item (github_trending.py
lines 271–275): copy `url` to `link` and `addStars` to `todayStars` when the
target key is absent; dict assignment appends the new key in insertion order.
Non-dict items (not produced by the real feed) are left unchanged. -/
def normalizeItem : JValue → JValue
  | .obj fields =>
    let f1 :=
      if (jGet fields "url").isSome && (jGet fields "link").isNone then
        fields ++ [("link", (jGet fields "url").getD .null)]
      else fields
    let f2 :=
      if (jGet f1 "addStars").isSome && (jGet f1 "todayStars").isNone then
        f1 ++ [("todayStars", (jGet f1 "addStars").getD .null)]
      else f1
    .obj f2
  | v => v

/-- Normalization of the whole primary payload: when the payload is a dict
with an `items` list, each item is normalized in place; any other shape is
left unchanged. -/
def normalizeData : JValue → JValue
  | .obj fields =>
    match jGet fields "items" with
    | some (.arr items) =>
      .obj (fields.map (fun p =>
        if p.1 = "items" then (p.1, .arr (items.map normalizeItem)) else p))
    | _ => .obj fields
  | v => v

/-- Embedding of `fetch_trending(since, language, use_cache)`
(github_trending.py lines 252–303). `file` is the state of the cache file
for the `(since, language)` key at time `now`; `primary` is the outcome of
the primary-feed request; `scraped` is the item list produced by
`scrape_trending` on the fallback path, and `pubDate` the timestamp string
synthesized for it. Cache hits are taken only when the cached value is
truthy; on primary failure (any HTTPError or URLError) the scraped list is
used if nonempty; otherwise the function prints an error and calls
`sys.exit(1)`. -/
def fetch_trending (use_cache : Bool) (file : FileState) (now : Int)
    (primary : PrimaryResult) (scraped : List JValue) (pubDate : String) :
    FetchOutcome :=
  match (if use_cache then read_cache "trending" file now else .ok .null) with
  | .error e => .exn e
  | .ok cached =>
    if jTruthy cached then .ret cached
    else
      match primary with
      | .ok data => .ret (normalizeData data)
      | .httpError _ | .urlError =>
        if !scraped.isEmpty then
          .ret (.obj [("items", .arr scraped), ("pubDate", .str pubDate)])
        else .exit 1

/-- One commit record as consumed by `score_recent_commits`: the nested
`commits[0].get("commit", {}).get("author", {}).get("date", "")` access,
with `""` standing for any missing level. -/
structure Commit where
  date : String := ""
deriving Repr, DecidableEq

/-- One open-issue record as consumed by `score_issue_response`:
`issue.get("comments", 0)`. -/
structure Issue where
  comments : Int := 0
deriving Repr, DecidableEq

/-- One pull-request record as consumed by `score_pr_merge_rate`:
`pr.get("merged_at")` (truthy when a non-empty timestamp string) and
`pr.get("state")`. -/
structure PR where
  merged_at : Option String := none
  state : String := ""
deriving Repr, DecidableEq

/-- Truthiness of the `merged_at` field in `if pr.get("merged_at")`. -/
def prMerged (pr : PR) : Bool :=
  match pr.merged_at with
  | none => false
  | some s => s != ""

/-- Repository metadata as consumed by `score_repo_health` and the `meta`
block of `analyze_repo`. `license = none` models a Python-falsy license
value (absent key, `null`, or an empty dict); `license = some spdx` models a
truthy license dict whose `spdx_id` defaults to `"Yes"` when missing
(`info["license"].get("spdx_id", "Yes")`). JSON-null metadata strings are
folded into the defaults; none of the claims distinguish them. -/
structure RepoInfo where
  license : Option (Option String) := none
  archived : Bool := false
  open_issues_count : Int := 0
  stargazers_count : Int := 0
  description : String := ""
  language : String := ""
  html_url : String := ""
deriving Repr, DecidableEq

/-- Python `s.replace("Z", "+00:00")` applied before `fromisoformat`:
every occurrence of the (single-character) pattern is expanded. -/
def replaceZ (s : String) : String :=
  String.mk ((s.toList.map
    (fun c => if c = 'Z' then "+00:00".toList else [c])).flatten)

/-- Python `s.split(sep)` for a single-character separator, on character
lists: the groups between separator occurrences, empties preserved
(`"".split("/") = [""]`, `"a//b".split("/") = ["a","","b"]`). -/
def pySplitChar (sep : Char) : List Char → List (List Char)
  | [] => [[]]
  | c :: rest =>
    match pySplitChar sep rest with
    | [] => [[c]]
    | g :: gs => if c = sep then [] :: g :: gs else (c :: g) :: gs

/-- Python `s.split(sep)` for a single-character separator. -/
def pySplit (s : String) (sep : Char) : List String :=
  (pySplitChar sep s.toList).map String.mk

/-- Decimal rendering of a nonnegative digit string with thousands commas,
working on the reversed digit list. -/
def commaGroupRev : List Char → List Char
  | a :: b :: c :: d :: rest => a :: b :: c :: ',' :: commaGroupRev (d :: rest)
  | l => l

/-- Python format `f"{n:,}"`: decimal with thousands separators. -/
def commaFmt (n : Int) : String :=
  let ds := (toString n.natAbs).toList
  let s := String.mk (commaGroupRev ds.reverse).reverse
  if n < 0 then "-" ++ s else s

/-- Embedding of `score_recent_commits(commits)` (analyzer.py lines
168–192). `fromiso` abstracts `datetime.fromisoformat(...).timestamp()` as a
partial map to epoch seconds (`none` = ValueError/TypeError, caught and
falling through to the 10-point "Unknown activity" return); `now` is the
current epoch second, and `days_ago` is the floor of the elapsed seconds
divided by 86400, exactly `timedelta.days`. -/
def score_recent_commits (fromiso : String → Option Int) (now : Int)
    (commits : List Commit) : Int × String :=
  match commits with
  | [] => (0, "No commits found")
  | c :: _ =>
    if c.date = "" then (10, "Unknown activity")
    else
      match fromiso (replaceZ c.date) with
      | none => (10, "Unknown activity")
      | some t =>
        let days_ago := (now - t).fdiv 86400
        if days_ago < 7 then (20, "Active (" ++ toString days_ago ++ "d ago)")
        else if days_ago < 30 then
          (15, "Recent (" ++ toString days_ago ++ "d ago)")
        else if days_ago < 90 then
          (10, "Moderate (" ++ toString days_ago ++ "d ago)")
        else if days_ago < 180 then
          (5, "Stale (" ++ toString days_ago ++ "d ago)")
        else (0, "Inactive (" ++ toString days_ago ++ "d ago)")

/-- Embedding of `score_readme(readme)` (analyzer.py lines 195–226).
`none` and the empty string are both Python-falsy and yield "No README". -/
def score_readme (readme : Option String) : Int × String :=
  match readme with
  | none => (0, "No README")
  | some r =>
    if r = "" then (0, "No README")
    else
      let lower := lowerStr r
      let has_install := ["install", "npm", "pip", "cargo", "setup"].any
        (fun k => substrOf k lower)
      let has_usage := ["usage", "example", "getting started", "quick start"].any
        (fun k => substrOf k lower)
      let has_badges := substrOf "![" r || substrOf "[![" r
      let lengthScore : Int := if r.length > 2000 then 5
        else if r.length > 500 then 3 else 0
      let lengthNote : String := if r.length > 2000 then "detailed"
        else if r.length > 500 then "basic" else "minimal"
      let score := lengthScore + (if has_install then 4 else 0) +
        (if has_usage then 4 else 0) + (if has_badges then 2 else 0)
      let notes := [lengthNote] ++ (if has_install then ["install docs"] else [])
        ++ (if has_usage then ["usage docs"] else [])
      (min score 15, String.intercalate ", " notes)

/-- Embedding of `score_issue_response(issues)` (analyzer.py lines 229–245).
The float comparisons `rate > 0.8` / `> 0.5` / `> 0.2` are written as the
equivalent exact cross-multiplied integer comparisons, and the percentage in
the note as the floor of `100 * responded / n` (they agree with CPython's
float arithmetic for every issue count the API can return). -/
def score_issue_response (issues : List Issue) : Int × String :=
  if issues.isEmpty then (15, "No open issues")
  else
    let responded : Int := (issues.filter (fun i => 0 < i.comments)).length
    let n : Int := issues.length
    let pct := toString ((100 * responded).fdiv n)
    if 5 * responded > 4 * n then (15, pct ++ "% responded")
    else if 2 * responded > n then (10, pct ++ "% responded")
    else if 5 * responded > n then (5, pct ++ "% responded")
    else (0, "Low response rate")

/-- Embedding of `score_pr_merge_rate(prs)` (analyzer.py lines 248–268),
with the float threshold comparisons cross-multiplied exactly as in
`score_issue_response`. -/
def score_pr_merge_rate (prs : List PR) : Int × String :=
  if prs.isEmpty then (10, "No PRs")
  else
    let merged : Int := (prs.filter prMerged).length
    let closed : Int := (prs.filter (fun pr => pr.state = "closed")).length
    if closed = 0 then (10, "All PRs open")
    else
      let pct := toString ((100 * merged).fdiv closed)
      if 10 * merged > 7 * closed then (15, pct ++ "% merged")
      else if 2 * merged > closed then (10, pct ++ "% merged")
      else if 10 * merged > 3 * closed then (5, pct ++ "% merged")
      else (0, "Low merge rate")

/-- The four `(score, note)` pairs produced by `score_repo_health(info)`
(analyzer.py lines 271–309), in dict insertion order. -/
structure HealthPairs where
  has_license : Int × String
  not_archived : Int × String
  low_open_issues : Int × String
  stars_velocity : Int × String
deriving Repr, DecidableEq

/-- Embedding of `score_repo_health(info)`. -/
def score_repo_health (info : RepoInfo) : HealthPairs :=
  let lic : Int × String :=
    match info.license with
    | some spdx => (5, spdx.getD "Yes")
    | none => (0, "None")
  let arch : Int × String :=
    if info.archived then (0, "Archived!") else (10, "Active")
  let oi := info.open_issues_count
  let low : Int × String :=
    if oi < 20 then (10, toString oi ++ " open")
    else if oi < 100 then (7, toString oi ++ " open")
    else if oi < 500 then (3, toString oi ++ " open")
    else (0, toString oi ++ " open (overloaded)")
  let stars := info.stargazers_count
  let vel : Int × String :=
    if stars > 10000 then (10, commaFmt stars ++ "⭐")
    else if stars > 1000 then (7, commaFmt stars ++ "⭐")
    else if stars > 100 then (4, commaFmt stars ++ "⭐")
    else (2, commaFmt stars ++ "⭐")
  ⟨lic, arch, low, vel⟩

/-- The eight entries of the `result["scores"]` dict in insertion order. -/
structure Scores where
  recent_commits : Int
  readme_quality : Int
  issue_response : Int
  pr_merge_rate : Int
  has_license : Int
  not_archived : Int
  low_open_issues : Int
  stars_velocity : Int
deriving Repr, DecidableEq

/-- Python `sum(result["scores"].values())` over the eight entries. -/
def Scores.sum (s : Scores) : Int :=
  s.recent_commits + s.readme_quality + s.issue_response + s.pr_merge_rate +
  s.has_license + s.not_archived + s.low_open_issues + s.stars_velocity

/-- The eight entries of `result["details"]`, same keys as `Scores`. -/
structure Details where
  recent_commits : String
  readme_quality : String
  issue_response : String
  pr_merge_rate : String
  has_license : String
  not_archived : String
  low_open_issues : String
  stars_velocity : String
deriving Repr, DecidableEq

/-- The `result["meta"]` block of a successful analysis. -/
structure Meta where
  description : String
  stars : Int
  language : String
  url : String
deriving Repr, DecidableEq

/-- A successful `analyze_repo` result dict. -/
structure HealthResult where
  repo : String
  scores : Scores
  details : Details
  total : Int
  grade : String
  meta : Meta
deriving Repr, DecidableEq

/-- Return value of `analyze_repo`: either an error dict (`{"error": msg}`
for a malformed identifier, `{"error": msg, "repo": name}` for a failed
metadata fetch) or the full result dict. -/
inductive AnalyzeResult where
  | err : String → Option String → AnalyzeResult
  | ok : HealthResult → AnalyzeResult
deriving Repr, DecidableEq

/-- The GitHub API and clock as seen by the analyzer: `repo_info` is
`get_repo_info` (an `_error` marker dict becomes `Except.error`), the other
fetchers return the already-typed lists `analyze_repo` consumes, `fromiso`
and `now` drive `score_recent_commits`. -/
structure World where
  fromiso : String → Option Int
  now : Int
  repo_info : String → String → Except String RepoInfo
  commits : String → String → List Commit
  open_issues : String → String → List Issue
  pulls : String → String → List PR
  readme : String → String → Option String

/-- Embedding of `analyze_repo(owner_repo)` (analyzer.py lines 316–389):
split the identifier on `/`, reject unless exactly two parts, fetch the five
data sources from the world, compute the eight sub-scores, sum them, and map
the total to a letter grade via the 85/70/55/40 chain. -/
def analyze_repo (w : World) (owner_repo : String) : AnalyzeResult :=
  match pySplit owner_repo '/' with
  | [owner, repo] =>
    match w.repo_info owner repo with
    | .error e => .err e (some owner_repo)
    | .ok info =>
      let commits := w.commits owner repo
      let issues := w.open_issues owner repo
      let prs := w.pulls owner repo
      let readme := w.readme owner repo
      let rc := score_recent_commits w.fromiso w.now commits
      let rq := score_readme readme
      let ir := score_issue_response issues
      let pm := score_pr_merge_rate prs
      let hp := score_repo_health info
      let sc : Scores := ⟨rc.1, rq.1, ir.1, pm.1, hp.has_license.1,
        hp.not_archived.1, hp.low_open_issues.1, hp.stars_velocity.1⟩
      let dt : Details := ⟨rc.2, rq.2, ir.2, pm.2, hp.has_license.2,
        hp.not_archived.2, hp.low_open_issues.2, hp.stars_velocity.2⟩
      let total := Scores.sum sc
      let grade := if total ≥ 85 then "A"
        else if total ≥ 70 then "B"
        else if total ≥ 55 then "C"
        else if total ≥ 40 then "D"
        else "F"
      .ok { repo := owner_repo, scores := sc, details := dt, total := total,
            grade := grade,
            meta := ⟨info.description, info.stargazers_count, info.language,
                     info.html_url⟩ }
  | _ => .err ("Invalid repo format: " ++ owner_repo) none

/-- One candidate entry handed to `analyze_repos`: the trending-feed dict,
of which only `title` is read (`repo_info.get("title", "")`). -/
structure TrendRepo where
  title : Option String := none
deriving Repr, DecidableEq

/-- The per-entry guard in the `analyze_repos` loop:
`if not title or "/" not in title: continue`. -/
def titleOk (r : TrendRepo) : Bool :=
  let t := r.title.getD ""
  t != "" && substrOf "/" t

/-- Sort key `x.get("total", 0)`: error dicts carry no `total` and count
as 0. -/
def keyTotal : AnalyzeResult → Int
  | .err _ _ => 0
  | .ok r => r.total

/-- Stable insertion of `x` into a list already sorted descending by
`keyTotal`: `x` goes before the first key not strictly greater than its own
(elements already in the list with an equal key came later in the input, so
`x` precedes them). -/
def insertByTotal (x : AnalyzeResult) : List AnalyzeResult → List AnalyzeResult
  | [] => [x]
  | y :: ys =>
    if keyTotal x < keyTotal y then y :: insertByTotal x ys
    else x :: y :: ys

/-- Stable descending sort by `keyTotal`. A stable sort is uniquely
determined by the key order, so this insertion sort returns exactly what
`results.sort(key=lambda x: x.get("total", 0), reverse=True)` produces. -/
def sortByTotal : List AnalyzeResult → List AnalyzeResult
  | [] => []
  | x :: xs => insertByTotal x (sortByTotal xs)

/-- The truncated candidate list of `analyze_repos`
(`repos[:max(1, remaining // 5)]` when quota is short and no token is set). -/
def truncateForQuota (remaining : Nat) (hasToken : Bool)
    (repos : List TrendRepo) : List TrendRepo :=
  if remaining < repos.length * 5 && !hasToken then
    repos.take (max 1 (remaining / 5))
  else repos

/-- Embedding of `analyze_repos(repos)` (analyzer.py lines 392–427):
check the remaining quota and truncate the candidate list when it is short
and no GITHUB_TOKEN is configured, skip entries whose title is empty or has
no `/`, analyze the rest in order, then stable-sort descending by total. -/
def analyze_repos (w : World) (remaining : Nat) (hasToken : Bool)
    (repos : List TrendRepo) : List AnalyzeResult :=
  let kept := truncateForQuota remaining hasToken repos
  let results := (kept.filter titleOk).map
    (fun r => analyze_repo w (r.title.getD ""))
  sortByTotal results

/-- A minimal concrete world (no commits, no issues, no PRs, no readme,
default metadata) used to instantiate hypothesis-bearing theorems. -/
def W0 : World where
  fromiso := fun _ => none
  now := 0
  repo_info := fun _ _ => .ok {}
  commits := fun _ _ => []
  open_issues := fun _ _ => []
  pulls := fun _ _ => []
  readme := fun _ _ => none

/-- The concrete value of `analyze_repo W0 "a/b"`, used to instantiate the
health-score invariants: no commits (0), no readme (0), no open issues (15),
no PRs (10), no license (0), not archived (10), 0 open issues (10),
0 stars (2). -/
def sampleResult : HealthResult where
  repo := "a/b"
  scores := ⟨0, 0, 15, 10, 0, 10, 10, 2⟩
  details := ⟨"No commits found", "No README", "No open issues", "No PRs",
    "None", "Active", "0 open", "0⭐"⟩
  total := 47
  grade := "D"
  meta := ⟨"", 0, "", ""⟩

/-- Whether an analysis result is an error dict. -/
def isErrResult : AnalyzeResult → Bool
  | .err _ _ => true
  | .ok _ => false

/-- C1 counterexample: a cache file whose bytes are the valid JSON text
`[]` (an array, not an object) makes `read_cache` raise AttributeError at
`data.get("_cached_at", 0)` instead of returning MISS, refuting "never
raises an exception to the caller, for any byte content". -/
theorem c1_read_cache_raises_counterexample :
    read_cache "trending" (.content (.arr [])) 0 = .error "AttributeError" :=
  rfl

/-- C1 (amended): `read_cache` returns MISS when the file is absent, when
reading or JSON-parsing it fails, and when the record is a JSON object whose
`_cached_at` is numeric but expired for the category TTL; however, when the
file parses to a non-object JSON value it raises AttributeError, and when
`_cached_at` is present but non-numeric it raises TypeError. -/
theorem c1_read_cache_miss_amended :
    (∀ ct now, read_cache ct .absent now = .ok .null) ∧
    (∀ ct now, read_cache ct .unreadable now = .ok .null) ∧
    (∀ ct now fields t,
      toNumber ((jGet fields "_cached_at").getD (.num 0)) = some t →
      now - t > CACHE_TTL ct →
      read_cache ct (.content (.obj fields)) now = .ok .null) ∧
    (∀ ct now v, (∀ fields, v ≠ .obj fields) →
      read_cache ct (.content v) now = .error "AttributeError") ∧
    (∀ ct now fields,
      toNumber ((jGet fields "_cached_at").getD (.num 0)) = none →
      read_cache ct (.content (.obj fields)) now = .error "TypeError") := by
  refine ⟨fun ct now => rfl, fun ct now => rfl, ?_, ?_, ?_⟩
  · intro ct now fields t ht hexp
    simp only [read_cache, ht]
    simp [hexp]
  · intro ct now v hv
    cases v with
    | obj fields => exact absurd rfl (hv fields)
    | null => rfl
    | bool b => rfl
    | num n => rfl
    | str s => rfl
    | arr xs => rfl
  · intro ct now fields ht
    simp only [read_cache, ht]

/-- C1 witness: an expired numeric record on the `trending` category reads
back as MISS. -/
theorem c1_read_cache_miss_witness :
    read_cache "trending" (.content (.obj [("_cached_at", .num 0)])) 4000 =
      .ok .null :=
  c1_read_cache_miss_amended.2.2.1 "trending" 4000 [("_cached_at", .num 0)] 0
    rfl (by decide)

/-- Reading back the exact record `write_cache` produces: a hit returns the
stored `_data` payload, an expired record returns MISS. -/
theorem read_write_record (ct key : String) (data : JValue) (t0 t1 : Int) :
    read_cache ct (.content (.obj [("_cached_at", .num t0), ("_key", .str key),
      ("_data", data)])) t1 =
      if t1 - t0 > CACHE_TTL ct then .ok .null else .ok data := by
  simp [read_cache, jGet, toNumber]

/-- The store cell addressed by the pair `write_cache` just wrote. -/
theorem write_cache_at (st : Store) (ct key : String) (data : JValue)
    (t0 : Int) :
    write_cache st ct key data t0 ct key =
      .content (.obj [("_cached_at", .num t0), ("_key", .str key),
        ("_data", data)]) := by
  simp [write_cache]

/-- C7: a `write_cache` followed by `read_cache` on the same
`(category, key)` at any time within the category TTL returns exactly the
written payload, and once more than the TTL has elapsed the same read
returns MISS. -/
theorem c7_cache_roundtrip :
    (∀ (st : Store) ct key data t0 t1, t1 - t0 ≤ CACHE_TTL ct →
      read_cache_store (write_cache st ct key data t0) ct key t1 = .ok data) ∧
    (∀ (st : Store) ct key data t0 t1, t1 - t0 > CACHE_TTL ct →
      read_cache_store (write_cache st ct key data t0) ct key t1 =
        .ok .null) := by
  constructor
  · intro st ct key data t0 t1 h
    rw [read_cache_store, write_cache_at, read_write_record, if_neg (by omega)]
  · intro st ct key data t0 t1 h
    rw [read_cache_store, write_cache_at, read_write_record, if_pos (by omega)]

/-- C7 witness: a payload written at time 100 reads back identically at
time 200, and reads as MISS at time 10000 (trending TTL is 3600). -/
theorem c7_cache_roundtrip_witness :
    read_cache_store (write_cache (fun _ _ => .absent) "trending" "daily_all"
        (.str "payload") 100) "trending" "daily_all" 200 =
      .ok (.str "payload") ∧
    read_cache_store (write_cache (fun _ _ => .absent) "trending" "daily_all"
        (.str "payload") 100) "trending" "daily_all" 10000 = .ok .null :=
  ⟨c7_cache_roundtrip.1 (fun _ _ => .absent) "trending" "daily_all"
      (.str "payload") 100 200 (by decide),
   c7_cache_roundtrip.2 (fun _ _ => .absent) "trending" "daily_all"
      (.str "payload") 100 10000 (by decide)⟩

/-- A single entry whose star string fails to parse makes the whole
`filter_repos` call raise ValueError. -/
theorem filter_repos_error_of_bad (repos : List Repo) (mn : Int)
    (mx : Option Int) (srch : Option String)
    (h : ∃ r ∈ repos, parseStars r = none) :
    filter_repos repos mn mx srch = .error "ValueError" := by
  induction repos with
  | nil => simp at h
  | cons r rest ih =>
    obtain ⟨x, hx, hpx⟩ := h
    rcases List.mem_cons.mp hx with hx1 | hx2
    · subst hx1
      simp [filter_repos, hpx]
    · cases hp : parseStars r with
      | none => simp [filter_repos, hp]
      | some s =>
        have hr := ih ⟨x, hx2, hpx⟩
        simp [filter_repos, hp, hr]

/-- C2 counterexample: an entry with the malformed star string `"N/A"`
makes `filter_repos` raise ValueError, refuting "a malformed star string
parses to 0 rather than raising — parsing is total over all input
strings". -/
theorem c2_star_parsing_counterexample :
    filter_repos [{ stars := some "N/A" }] 0 none none =
      .error "ValueError" := rfl

/-- C2 (amended): star strings are parsed by stripping thousands separators
and converting to integer (`"12,345"` parses to `12345`), and an absent star
field defaults to `"0"` and so parses to 0; but a malformed star string is
not parsed to 0 — the uncaught ValueError from `int()` aborts the whole
`filter_repos` call, so parsing is not total. -/
theorem c2_star_parsing_amended :
    parseStars { stars := some "12,345" } = some 12345 ∧
    (∀ r : Repo, r.stars = none → parseStars r = some 0) ∧
    (∀ (repos : List Repo) (mn : Int) (mx : Option Int) (srch : Option String),
      (∃ r ∈ repos, parseStars r = none) →
      filter_repos repos mn mx srch = .error "ValueError") := by
  refine ⟨by decide, ?_, filter_repos_error_of_bad⟩
  intro r h
  simp only [parseStars, h]
  decide

/-- C2 witness: an absent star field parses to 0, and a list containing a
malformed star string raises. -/
theorem c2_star_parsing_witness :
    parseStars { title := some "o/r" } = some 0 ∧
    filter_repos [{ stars := some "12x" }] 5 none none =
      .error "ValueError" :=
  ⟨c2_star_parsing_amended.2.1 { title := some "o/r" } rfl,
   c2_star_parsing_amended.2.2 [{ stars := some "12x" }] 5 none none
     ⟨{ stars := some "12x" }, by decide⟩⟩

/-- C6: with `max_stars` absent, a threshold `S` and a nonempty search term
`T`, `filter_repos` on a list whose star strings all parse returns exactly
the subset of entries whose parsed star count is at least `S` and whose
title or description contains `T` case-insensitively, in input order, each
with the derived integer star field attached. -/
theorem c6_filter_exact_subset (mn : Int) (T : String) (hT : T ≠ "")
    (repos : List Repo) (hp : ∀ r ∈ repos, (parseStars r).isSome) :
    filter_repos repos mn none (some T) =
      .ok ((repos.filter (meetsCriteria mn T)).map setStarsInt) := by
  induction repos with
  | nil => rfl
  | cons r rest ih =>
    obtain ⟨s, hs⟩ := Option.isSome_iff_exists.mp (hp r (by simp))
    have ihr := ih (fun x hx => hp x (by simp [hx]))
    have hsT : searchTruthy (some T) = true := by
      simp [searchTruthy, hT]
    by_cases hlt : s < mn
    · have hm : meetsCriteria mn T r = false := by
        simp only [meetsCriteria, hs, Option.getD_some, Bool.and_eq_false_iff]
        left
        simpa using hlt
      simp [filter_repos, hs, ihr, hlt, maxTruthy, hsT, hm]
    · by_cases hmatch : (substrOf (lowerStr T) (lowerStr (r.title.getD "")) ||
        substrOf (lowerStr T) (lowerStr (r.description.getD ""))) = true
      · have hm : meetsCriteria mn T r = true := by
          simp only [meetsCriteria, hs, Option.getD_some]
          simp [hmatch]
          omega
        simp [filter_repos, hs, ihr, hlt, maxTruthy, hsT, hmatch, hm,
          setStarsInt]
      · have hm : meetsCriteria mn T r = false := by
          simp only [meetsCriteria, hs, Option.getD_some, Bool.and_eq_false_iff]
          right
          simpa using hmatch
        simp [filter_repos, hs, ihr, hlt, maxTruthy, hsT, hmatch, hm]

/-- C6 witness: filtering two concrete entries by a 1000-star minimum and
the case-insensitive term "rust" keeps exactly the matching subset. -/
theorem c6_filter_exact_subset_witness :
    filter_repos
      [{ title := some "owner/repo-a", description := some "A Python framework",
         stars := some "12,345" },
       { title := some "org/repo-b", description := some "Rust systems tool",
         stars := some "890" }] 1000 none (some "rust") =
      .ok (([({ title := some "owner/repo-a",
                description := some "A Python framework",
                stars := some "12,345" } : Repo),
             { title := some "org/repo-b",
               description := some "Rust systems tool",
               stars := some "890" }].filter
        (meetsCriteria 1000 "rust")).map setStarsInt) :=
  c6_filter_exact_subset 1000 "rust" (by decide) _ (by decide)

/-- C10: passing `max_stars = 0` makes the Python guard
`if max_stars and stars > max_stars` falsy, so it behaves exactly like
passing no upper bound at all; in particular a 100-star entry survives
`max_stars = 0`. -/
theorem c10_max_stars_zero_is_no_bound :
    (∀ (repos : List Repo) (mn : Int) (srch : Option String),
      filter_repos repos mn (some 0) srch = filter_repos repos mn none srch) ∧
    filter_repos [{ stars := some "100" }] 0 (some 0) none =
      .ok [{ stars := some "100", starsInt := some 100 }] := by
  constructor
  · intro repos mn srch
    induction repos with
    | nil => rfl
    | cons r rest ih =>
      simp only [filter_repos, maxTruthy, ih]
      norm_num
  · rfl

/-- C5: when the cache gives no (truthy) hit and the primary feed fails with
any HTTPError or URLError, `fetch_trending` with an empty scrape result is a
hard failure (`sys.exit(1)`), and with a nonempty scrape result it returns
exactly the synthesized fallback document — an empty fallback is never
returned as a silent success. -/
theorem c5_fetch_empty_fallback_is_fatal :
    ∀ (use_cache : Bool) (file : FileState) (now : Int)
      (primary : PrimaryResult) (scraped : List JValue) (pubDate : String)
      (v : JValue),
      (primary = .urlError ∨ ∃ c, primary = .httpError c) →
      (if use_cache then read_cache "trending" file now
       else Except.ok .null) = .ok v →
      jTruthy v = false →
      (scraped = [] →
        fetch_trending use_cache file now primary scraped pubDate = .exit 1) ∧
      (scraped ≠ [] →
        fetch_trending use_cache file now primary scraped pubDate =
          .ret (.obj [("items", .arr scraped), ("pubDate", .str pubDate)])) := by
  intro use_cache file now primary scraped pubDate v hp hread hv
  constructor
  · intro hempty
    subst hempty
    rcases hp with h1 | ⟨c, h2⟩ <;> subst_vars <;>
      simp [fetch_trending, hread, hv]
  · intro hne
    rcases hp with h1 | ⟨c, h2⟩ <;> subst_vars <;>
      simp [fetch_trending, hread, hv, hne]

/-- C5 witness: cache disabled, primary network failure, empty scrape:
the call exits with status 1. -/
theorem c5_fetch_empty_fallback_is_fatal_witness :
    fetch_trending false .absent 0 .urlError [] "now" = .exit 1 :=
  (c5_fetch_empty_fallback_is_fatal false .absent 0 .urlError [] "now" .null
    (Or.inl rfl) rfl rfl).1 rfl

/-- C9: the commit-recency sub-score is 0 for an empty commit list, 20/15/
10/5/0 for a latest commit strictly under 7/30/90/180 days and at least 180
days old respectively (whole days, floor of elapsed seconds over 86400), and
10 when the latest commit date is empty or does not parse. -/
theorem c9_score_recent_commits_bands :
    (∀ f (now : Int), (score_recent_commits f now []).1 = 0) ∧
    (∀ f (now : Int) (c : Commit) cs t, c.date ≠ "" →
      f (replaceZ c.date) = some t → 0 ≤ now - t → now - t < 7 * 86400 →
      (score_recent_commits f now (c :: cs)).1 = 20) ∧
    (∀ f (now : Int) (c : Commit) cs t, c.date ≠ "" →
      f (replaceZ c.date) = some t →
      7 * 86400 ≤ now - t → now - t < 30 * 86400 →
      (score_recent_commits f now (c :: cs)).1 = 15) ∧
    (∀ f (now : Int) (c : Commit) cs t, c.date ≠ "" →
      f (replaceZ c.date) = some t →
      30 * 86400 ≤ now - t → now - t < 90 * 86400 →
      (score_recent_commits f now (c :: cs)).1 = 10) ∧
    (∀ f (now : Int) (c : Commit) cs t, c.date ≠ "" →
      f (replaceZ c.date) = some t →
      90 * 86400 ≤ now - t → now - t < 180 * 86400 →
      (score_recent_commits f now (c :: cs)).1 = 5) ∧
    (∀ f (now : Int) (c : Commit) cs t, c.date ≠ "" →
      f (replaceZ c.date) = some t → 180 * 86400 ≤ now - t →
      (score_recent_commits f now (c :: cs)).1 = 0) ∧
    (∀ f (now : Int) (c : Commit) cs, c.date ≠ "" →
      f (replaceZ c.date) = none →
      (score_recent_commits f now (c :: cs)).1 = 10) ∧
    (∀ f (now : Int) cs, (score_recent_commits f now ({ date := "" } :: cs)).1
      = 10) := by
  have hded : ∀ x : Int, x.fdiv 86400 = x / 86400 :=
    fun x => Int.fdiv_eq_ediv x (by norm_num)
  refine ⟨fun f now => rfl, ?_, ?_, ?_, ?_, ?_, ?_, fun f now cs => rfl⟩ <;>
    intro f now c cs
  · intro t hd hf h0 h7
    simp only [score_recent_commits, if_neg hd, hf, hded]
    rw [if_pos (by omega)]
  · intro t hd hf h7 h30
    simp only [score_recent_commits, if_neg hd, hf, hded]
    rw [if_neg (by omega), if_pos (by omega)]
  · intro t hd hf h30 h90
    simp only [score_recent_commits, if_neg hd, hf, hded]
    rw [if_neg (by omega), if_neg (by omega), if_pos (by omega)]
  · intro t hd hf h90 h180
    simp only [score_recent_commits, if_neg hd, hf, hded]
    rw [if_neg (by omega), if_neg (by omega), if_neg (by omega),
      if_pos (by omega)]
  · intro t hd hf h180
    simp only [score_recent_commits, if_neg hd, hf, hded]
    rw [if_neg (by omega), if_neg (by omega), if_neg (by omega),
      if_neg (by omega)]
  · intro hd hf
    simp only [score_recent_commits, if_neg hd, hf]

/-- C9 witness: a commit timestamped exactly `now` scores 20 and the same
commit 200 days later scores 0 (dates mapping to epoch 0), while a date the
parser rejects scores 10. -/
theorem c9_score_recent_commits_bands_witness :
    (score_recent_commits (fun _ => some 0) 0 [{ date := "now" }]).1 = 20 ∧
    (score_recent_commits (fun _ => some 0) (200 * 86400)
      [{ date := "now" }]).1 = 0 ∧
    (score_recent_commits (fun _ => none) 0 [{ date := "junk" }]).1 = 10 :=
  ⟨c9_score_recent_commits_bands.2.1 (fun _ => some 0) 0 { date := "now" }
      [] 0 (by decide) rfl (by decide) (by decide),
   c9_score_recent_commits_bands.2.2.2.2.2.1 (fun _ => some 0) (200 * 86400)
      { date := "now" } [] 0 (by decide) rfl (by decide),
   c9_score_recent_commits_bands.2.2.2.2.2.2.1 (fun _ => none) 0
      { date := "junk" } [] (by decide) rfl⟩

/-- The commit-recency sub-score always lies in [0, 20]. -/
theorem score_recent_commits_range (f : String → Option Int) (now : Int)
    (cs : List Commit) : 0 ≤ (score_recent_commits f now cs).1 ∧
    (score_recent_commits f now cs).1 ≤ 20 := by
  rcases cs with _ | ⟨c, cs⟩
  · simp [score_recent_commits]
  · by_cases hd : c.date = ""
    · simp [score_recent_commits, hd]
    · simp only [score_recent_commits, if_neg hd]
      cases f (replaceZ c.date) with
      | none => simp
      | some t =>
        dsimp only
        split_ifs <;> simp

/-- The readme sub-score always lies in [0, 15]. -/
theorem score_readme_range (r : Option String) :
    0 ≤ (score_readme r).1 ∧ (score_readme r).1 ≤ 15 := by
  rcases r with _ | s
  · simp [score_readme]
  · by_cases hs : s = ""
    · simp [score_readme, hs]
    · simp only [score_readme, if_neg hs]
      refine ⟨le_min ?_ (by norm_num), min_le_right _ _⟩
      split_ifs <;> norm_num

/-- The issue-response sub-score always lies in [0, 15]. -/
theorem score_issue_response_range (issues : List Issue) :
    0 ≤ (score_issue_response issues).1 ∧
    (score_issue_response issues).1 ≤ 15 := by
  simp only [score_issue_response]
  split_ifs <;> simp

/-- The PR-merge-rate sub-score always lies in [0, 15]. -/
theorem score_pr_merge_rate_range (prs : List PR) :
    0 ≤ (score_pr_merge_rate prs).1 ∧ (score_pr_merge_rate prs).1 ≤ 15 := by
  simp only [score_pr_merge_rate]
  split_ifs <;> simp

/-- The four metadata sub-scores lie in [0,5], [0,10], [0,10] and [2,10]. -/
theorem score_repo_health_range (info : RepoInfo) :
    (0 ≤ (score_repo_health info).has_license.1 ∧
      (score_repo_health info).has_license.1 ≤ 5) ∧
    (0 ≤ (score_repo_health info).not_archived.1 ∧
      (score_repo_health info).not_archived.1 ≤ 10) ∧
    (0 ≤ (score_repo_health info).low_open_issues.1 ∧
      (score_repo_health info).low_open_issues.1 ≤ 10) ∧
    (2 ≤ (score_repo_health info).stars_velocity.1 ∧
      (score_repo_health info).stars_velocity.1 ≤ 10) := by
  simp only [score_repo_health]
  rcases info.license with _ | spdx <;> split_ifs <;> simp

/-- C4: every successfully scored repository satisfies the invariants:
`total` equals the sum of the eight sub-scores, `total` lies in [0, 100],
and the grade is the step function of `total` with boundaries at 85 (A),
70 (B), 55 (C) and 40 (D), F below. -/
theorem c4_health_score_invariants (w : World) (owner_repo : String)
    (r : HealthResult) (h : analyze_repo w owner_repo = .ok r) :
    r.total = Scores.sum r.scores ∧ 0 ≤ r.total ∧ r.total ≤ 100 ∧
    (85 ≤ r.total → r.grade = "A") ∧
    (70 ≤ r.total ∧ r.total < 85 → r.grade = "B") ∧
    (55 ≤ r.total ∧ r.total < 70 → r.grade = "C") ∧
    (40 ≤ r.total ∧ r.total < 55 → r.grade = "D") ∧
    (r.total < 40 → r.grade = "F") := by
  unfold analyze_repo at h
  split at h
  next owner repo hsplit =>
    cases hinfo : w.repo_info owner repo with
    | error e => rw [hinfo] at h; simp at h
    | ok info =>
      rw [hinfo] at h
      simp only [AnalyzeResult.ok.injEq] at h
      subst h
      obtain ⟨hrc0, hrc1⟩ := score_recent_commits_range w.fromiso w.now
        (w.commits owner repo)
      obtain ⟨hrq0, hrq1⟩ := score_readme_range (w.readme owner repo)
      obtain ⟨hir0, hir1⟩ := score_issue_response_range
        (w.open_issues owner repo)
      obtain ⟨hpm0, hpm1⟩ := score_pr_merge_rate_range (w.pulls owner repo)
      obtain ⟨⟨hl0, hl1⟩, ⟨ha0, ha1⟩, ⟨ho0, ho1⟩, ⟨hv0, hv1⟩⟩ :=
        score_repo_health_range info
      refine ⟨rfl, by simp only [Scores.sum]; omega,
        by simp only [Scores.sum]; omega, ?_, ?_, ?_, ?_, ?_⟩
      · intro h85
        simp only [Scores.sum] at h85 ⊢
        rw [if_pos (by omega)]
      · rintro ⟨h70, h85⟩
        simp only [Scores.sum] at h70 h85 ⊢
        rw [if_neg (by omega), if_pos (by omega)]
      · rintro ⟨h55, h70⟩
        simp only [Scores.sum] at h55 h70 ⊢
        rw [if_neg (by omega), if_neg (by omega), if_pos (by omega)]
      · rintro ⟨h40, h55⟩
        simp only [Scores.sum] at h40 h55 ⊢
        rw [if_neg (by omega), if_neg (by omega), if_neg (by omega),
          if_pos (by omega)]
      · intro h40
        simp only [Scores.sum] at h40 ⊢
        rw [if_neg (by omega), if_neg (by omega), if_neg (by omega),
          if_neg (by omega)]
  next => simp at h

/-- C4 witness: the invariants instantiated on the concrete analysis of
`"a/b"` in the minimal world (total 47, grade D). -/
theorem c4_health_score_invariants_witness :
    sampleResult.total = Scores.sum sampleResult.scores ∧
    0 ≤ sampleResult.total ∧ sampleResult.total ≤ 100 ∧
    (85 ≤ sampleResult.total → sampleResult.grade = "A") ∧
    (70 ≤ sampleResult.total ∧ sampleResult.total < 85 →
      sampleResult.grade = "B") ∧
    (55 ≤ sampleResult.total ∧ sampleResult.total < 70 →
      sampleResult.grade = "C") ∧
    (40 ≤ sampleResult.total ∧ sampleResult.total < 55 →
      sampleResult.grade = "D") ∧
    (sampleResult.total < 40 → sampleResult.grade = "F") :=
  c4_health_score_invariants W0 "a/b" sampleResult rfl

/-- Inserting into the stable sort grows the length by one. -/
theorem insertByTotal_length (x : AnalyzeResult) (l : List AnalyzeResult) :
    (insertByTotal x l).length = l.length + 1 := by
  induction l with
  | nil => rfl
  | cons y ys ih =>
    simp only [insertByTotal]
    split_ifs <;> simp [ih]

/-- The stable sort preserves length. -/
theorem sortByTotal_length (l : List AnalyzeResult) :
    (sortByTotal l).length = l.length := by
  induction l with
  | nil => rfl
  | cons x xs ih => simp [sortByTotal, insertByTotal_length, ih]

/-- Inserting into the stable sort is a permutation of consing. -/
theorem insertByTotal_perm (x : AnalyzeResult) (l : List AnalyzeResult) :
    List.Perm (insertByTotal x l) (x :: l) := by
  induction l with
  | nil => exact List.Perm.refl _
  | cons y ys ih =>
    simp only [insertByTotal]
    split_ifs with h
    · exact (ih.cons y).trans (List.Perm.swap x y ys)
    · exact List.Perm.refl _

/-- The stable sort permutes its input. -/
theorem sortByTotal_perm (l : List AnalyzeResult) :
    List.Perm (sortByTotal l) l := by
  induction l with
  | nil => exact List.Perm.refl _
  | cons x xs ih => exact (insertByTotal_perm x _).trans (ih.cons x)

/-- Membership is invariant under the stable sort. -/
theorem mem_sortByTotal {a : AnalyzeResult} {l : List AnalyzeResult} :
    a ∈ sortByTotal l ↔ a ∈ l :=
  (sortByTotal_perm l).mem_iff

/-- The batch produces exactly one result per entry surviving the quota
truncation and the title guard. -/
theorem analyze_repos_length (w : World) (remaining : Nat) (hasToken : Bool)
    (repos : List TrendRepo) :
    (analyze_repos w remaining hasToken repos).length =
      ((truncateForQuota remaining hasToken repos).filter titleOk).length := by
  simp [analyze_repos, sortByTotal_length]

/-- The batch results are a permutation of the per-entry analyses of the
surviving entries. -/
theorem analyze_repos_perm (w : World) (remaining : Nat) (hasToken : Bool)
    (repos : List TrendRepo) :
    List.Perm (analyze_repos w remaining hasToken repos)
      (((truncateForQuota remaining hasToken repos).filter titleOk).map
        (fun r => analyze_repo w (r.title.getD ""))) :=
  sortByTotal_perm _

/-- An identifier that does not split into exactly two `/`-separated parts
makes `analyze_repo` return the format-error dict. -/
theorem analyze_repo_malformed (w : World) (t : String)
    (h : (pySplit t '/').length ≠ 2) :
    analyze_repo w t = .err ("Invalid repo format: " ++ t) none := by
  unfold analyze_repo
  split
  next a b heq => exact absurd (by simp [heq]) h
  next => rfl

/-- C3 counterexample: in a batch of two entries where the first has the
malformed identifier "abc" (no `/`), the returned list has a single result
and contains no error result at all — the malformed entry is silently
skipped rather than reported, refuting the claim that it "yields an error
result for that entry in the returned list". -/
theorem c3_batch_malformed_counterexample :
    (analyze_repos W0 1000 true
      [{ title := some "abc" }, { title := some "good/repo" }]).length = 1 ∧
    (analyze_repos W0 1000 true
      [{ title := some "abc" }, { title := some "good/repo" }]).all
      (fun r => !(isErrResult r)) = true :=
  ⟨rfl, rfl⟩

/-- C3 (amended): the batch is never aborted and every surviving entry
produces exactly one result, but malformed identifiers split in two ways:
an entry whose title is empty or contains no `/` is silently skipped and
yields no result at all, while an entry whose title contains `/` but does
not split into exactly one owner/name pair yields an error result in the
returned list. -/
theorem c3_batch_malformed_amended :
    (∀ (w : World) (remaining : Nat) (hasToken : Bool)
       (repos : List TrendRepo),
      (analyze_repos w remaining hasToken repos).length =
        ((truncateForQuota remaining hasToken repos).filter
          titleOk).length) ∧
    (∀ (w : World) (remaining : Nat) (hasToken : Bool)
       (repos : List TrendRepo) (r : TrendRepo),
      r ∈ truncateForQuota remaining hasToken repos → titleOk r = true →
      (pySplit (r.title.getD "") '/').length ≠ 2 →
      AnalyzeResult.err ("Invalid repo format: " ++ (r.title.getD "")) none ∈
        analyze_repos w remaining hasToken repos) := by
  refine ⟨analyze_repos_length, ?_⟩
  intro w rem tok repos r hmem hok hsplit
  have h1 : r ∈ (truncateForQuota rem tok repos).filter titleOk :=
    List.mem_filter.mpr ⟨hmem, hok⟩
  have h2 : AnalyzeResult.err ("Invalid repo format: " ++ (r.title.getD ""))
      none ∈ ((truncateForQuota rem tok repos).filter titleOk).map
        (fun x => analyze_repo w (x.title.getD "")) := by
    rw [← analyze_repo_malformed w (r.title.getD "") hsplit]
    exact List.mem_map_of_mem _ h1
  exact mem_sortByTotal.mpr h2

/-- C3 witness: the entry "a/b/c" (two slashes) survives the guards and its
format-error dict appears in the batch output, which has exactly one result
per surviving entry. -/
theorem c3_batch_malformed_amended_witness :
    (analyze_repos W0 1000 true [{ title := some "a/b/c" }]).length =
      ((truncateForQuota 1000 true [{ title := some "a/b/c" }]).filter
        titleOk).length ∧
    AnalyzeResult.err ("Invalid repo format: " ++
        (({ title := some "a/b/c" } : TrendRepo).title.getD "")) none ∈
      analyze_repos W0 1000 true [{ title := some "a/b/c" }] :=
  ⟨c3_batch_malformed_amended.1 W0 1000 true [{ title := some "a/b/c" }],
   c3_batch_malformed_amended.2 W0 1000 true [{ title := some "a/b/c" }]
     { title := some "a/b/c" } (by decide) (by decide) (by decide)⟩

/-- C8: when the remaining quota is below five calls per candidate and no
token is configured, the batch scores exactly the first
`max 1 (remaining / 5)` candidates (its results are a permutation of their
per-entry analyses); in particular, 12 remaining calls and 5 well-formed
candidates produce exactly 2 results. -/
theorem c8_quota_truncation :
    (∀ (w : World) (remaining : Nat) (repos : List TrendRepo),
      remaining < repos.length * 5 →
      List.Perm (analyze_repos w remaining false repos)
        (((repos.take (max 1 (remaining / 5))).filter titleOk).map
          (fun r => analyze_repo w (r.title.getD "")))) ∧
    (∀ (w : World) (repos : List TrendRepo), repos.length = 5 →
      (∀ r ∈ repos, titleOk r = true) →
      (analyze_repos w 12 false repos).length = 2) := by
  have htr : ∀ (remaining : Nat) (repos : List TrendRepo),
      remaining < repos.length * 5 →
      truncateForQuota remaining false repos =
        repos.take (max 1 (remaining / 5)) := by
    intro rem repos h
    simp [truncateForQuota, h]
  constructor
  · intro w rem repos h
    have hbody : analyze_repos w rem false repos =
        sortByTotal (((truncateForQuota rem false repos).filter titleOk).map
          (fun r => analyze_repo w (r.title.getD ""))) := rfl
    rw [hbody, htr rem repos h]
    exact sortByTotal_perm _
  · intro w repos hlen hok
    rw [analyze_repos_length, htr 12 repos (by omega)]
    have h2 : (max 1 (12 / 5) : Nat) = 2 := by norm_num
    rw [h2, List.filter_eq_self.mpr
      (fun r hr => hok r (List.take_subset _ _ hr)), List.length_take, hlen]
    rfl

/-- C8 witness: five concrete well-formed candidates under a remaining
quota of 12 yield exactly 2 results. -/
theorem c8_quota_truncation_witness :
    (analyze_repos W0 12 false
      [{ title := some "o/r1" }, { title := some "o/r2" },
       { title := some "o/r3" }, { title := some "o/r4" },
       { title := some "o/r5" }]).length = 2 :=
  c8_quota_truncation.2 W0
    [{ title := some "o/r1" }, { title := some "o/r2" },
     { title := some "o/r3" }, { title := some "o/r4" },
     { title := some "o/r5" }] rfl (by decide)
